import Mathlib

/-!
Shallow embedding of the kubewatcher (k8watch) change-detection and event
pipeline: the per-kind watch handlers and meaningful-change policies
(internal/watcher), the SQLite-backed event store (internal/storage), and the
Slack notification sink (internal/notifier).

Modelling conventions:
- Go maps (`map[string]string`, `map[string][]byte`) are association lists
  `List (String × String)`; a well-formed map has `Nodup` keys.  Go's
  nondeterministic map iteration order becomes the list order.
- `*int32` / `*int` pointers are `Option Int`; resource quantities
  (`resource.Quantity`, compared only with `Equal`) are `Int`.
- `time.Time` is `Int` (seconds); `AddDate(0,0,-d)` is `now - d*86400`.
- A handler returns the list of `ChangeEvent`s it submits to
  `saveAndNotify` (i.e. the events stored when the store write succeeds).
- JSON rendering of the metadata maps follows Go's `json.Marshal`
  (object keys in sorted order); HTML escaping is not modelled.
-/

namespace K8Watch

/-- Events are skipped for these system-reserved namespaces
(the literal check repeated at the top of every handler). -/
def excludedNs (ns : String) : Bool :=
  ns == "kube-system" || ns == "kube-public" || ns == "kube-node-lease"

/-- Rendering of a Go `[]string` by `fmt.Sprintf("%v", xs)`. -/
def goStrSlice (xs : List String) : String :=
  "[" ++ String.intercalate " " xs ++ "]"

/-- Minimal JSON string escaping: backslash (code 92) and double quote
(code 34) are preceded by a backslash. -/
def jsonEscape (s : String) : String :=
  String.join (s.toList.map (fun c =>
    if c.toNat = 92 ∨ c.toNat = 34 then
      String.singleton (Char.ofNat 92) ++ String.singleton c
    else String.singleton c))

/-- JSON rendering of a string. -/
def jsonStr (s : String) : String := "\"" ++ jsonEscape s ++ "\""

/-- JSON rendering of a `[]string`. -/
def jsonStrList (xs : List String) : String :=
  "[" ++ String.intercalate "," (xs.map jsonStr) ++ "]"

/-- JSON rendering of a `*int32` (nil marshals to `null`). -/
def jsonOptInt : Option Int → String
  | none => "null"
  | some n => toString n

/-- Rendering of a Go bool by `%v`. -/
def goBool (b : Bool) : String := if b then "true" else "false"

/-- Insert a pair into a key-sorted pair list (ascending key order). -/
def insertPairByKey (p : String × String) : List (String × String) → List (String × String)
  | [] => [p]
  | q :: qs => if p.1 < q.1 then p :: q :: qs else q :: insertPairByKey p qs

/-- Sort an association list by key, the order `fmt` uses to print a Go map. -/
def sortPairsByKey (m : List (String × String)) : List (String × String) :=
  m.foldl (fun acc p => insertPairByKey p acc) []

/-- Rendering of a `map[string]string` by `fmt.Sprintf("%v", m)`:
keys in sorted order, `map[k1:v1 k2:v2]`. -/
def renderGoMap (m : List (String × String)) : String :=
  "map[" ++ String.intercalate " " ((sortPairsByKey m).map (fun p => p.1 ++ ":" ++ p.2)) ++ "]"

/-- Does `pat` occur at the head of `s`? -/
def charsMatchAt : List Char → List Char → Bool
  | [], _ => true
  | _ :: _, [] => false
  | a :: as, b :: bs => a == b && charsMatchAt as bs

/-- Does `pat` occur anywhere in `s`? -/
def charsContain (pat : List Char) : List Char → Bool
  | [] => pat.isEmpty
  | c :: rest => charsMatchAt pat (c :: rest) || charsContain pat rest

/-- Substring test (the semantics of SQL `LIKE '%pat%'` for a nonempty
pattern, up to case; used here for exact-content assertions as well). -/
def strContains (hay pat : String) : Bool :=
  charsContain pat.toList hay.toList

/-- Keys of an association-list map (Go: iterating `for k := range m`). -/
def keysOf (m : List (String × String)) : List String := m.map Prod.fst

/-- Does the entry `kv` of the new map hold a changed value relative to the
old map?  Mirrors the Go loop `for k, newVal := range new { if oldVal, ok :=
old[k]; ok && oldVal != newVal }`. -/
def valueChanged (old : List (String × String)) (kv : String × String) : Bool :=
  match List.lookup kv.1 old with
  | some ov => ov != kv.2
  | none => false

/-- ChangeEvent (internal/storage/models.go).  `id` is assigned by the store
on insert; handler-built events carry the zero value. -/
structure ChangeEvent where
  id : Int := 0
  timestamp : Int
  namespace' : String
  kind : String
  name : String
  action : String
  diff : String := ""
  metadata : String := ""
  imageBefore : String := ""
  imageAfter : String := ""
deriving DecidableEq, Repr

/-- Filter (internal/storage/models.go).  Zero values mean "no constraint". -/
structure Filter where
  namespace' : String := ""
  kind : String := ""
  name : String := ""
  action : String := ""
  startTime : Int := 0
  endTime : Int := 0
  limit : Int := 0
  offset : Int := 0
deriving DecidableEq, Repr

/-- One delivered transition from a kind's informer: `AddFunc` passes only a
new snapshot, `UpdateFunc` both, `DeleteFunc` only the last-known snapshot. -/
inductive Transition (α : Type) where
  | added (n : α)
  | modified (o n : α)
  | deleted (o : α)
deriving DecidableEq, Repr

/-- The snapshot each handler uses for namespace/name: the new object when
present, otherwise the old one (the nil-fallback at the top of every
handler). -/
def Transition.primary : Transition α → α
  | .added n => n
  | .modified _ n => n
  | .deleted o => o

/-- Container (the fields of `corev1.Container` the policies read).
Quantities are compared only via `Equal`, modelled as `Int` equality;
`env` is read only through `len`. -/
structure Container where
  name : String := ""
  image : String := ""
  limitsCpu : Int := 0
  limitsMem : Int := 0
  requestsCpu : Int := 0
  requestsMem : Int := 0
  env : List String := []
deriving DecidableEq, Repr

/-- Deployment snapshot (the fields `handleDeploymentEvent` and
`detectMeaningfulChanges` read). -/
structure Deployment where
  namespace' : String
  name : String
  replicas : Option Int := none
  containers : List Container := []
  strategy : String := ""
deriving DecidableEq, Repr

/-- detectMeaningfulChanges (watcher): replica delta, first-container image,
resource limits/requests, env-var count, strategy type; returns the first
detected change as the summary. -/
def detectMeaningfulChanges (oldDep newDep : Deployment) : Bool × String :=
  let oldReplicas := oldDep.replicas.getD 0
  let newReplicas := newDep.replicas.getD 0
  let replicaChanges :=
    if oldReplicas ≠ newReplicas then
      [(if newReplicas > oldReplicas then "Scaled up: " else "Scaled down: ") ++
        toString oldReplicas ++ " → " ++ toString newReplicas ++ " replicas"]
    else []
  let containerChanges :=
    match oldDep.containers, newDep.containers with
    | oc :: _, nc :: _ =>
      (if oc.image ≠ nc.image then ["Image updated: " ++ oc.image ++ " → " ++ nc.image] else []) ++
      (if oc.limitsCpu ≠ nc.limitsCpu ∨ oc.limitsMem ≠ nc.limitsMem then
        ["Resource limits updated"] else []) ++
      (if oc.requestsCpu ≠ nc.requestsCpu ∨ oc.requestsMem ≠ nc.requestsMem then
        ["Resource requests updated"] else []) ++
      (if oc.env.length ≠ nc.env.length then ["Environment variables updated"] else [])
    | _, _ => []
  let strategyChanges :=
    if oldDep.strategy ≠ newDep.strategy then
      ["Deployment strategy changed: " ++ oldDep.strategy ++ " → " ++ newDep.strategy]
    else []
  match replicaChanges ++ containerChanges ++ strategyChanges with
  | [] => (false, "")
  | c :: _ => (true, c)

/-- diff.ExtractImage composed with convertToMap: the serialized object's
`spec.template.spec.containers[0].image`, or `""` when absent. -/
def ExtractImage (d : Deployment) : String :=
  match d.containers with
  | [] => ""
  | c :: _ => c.image

/-- Metadata written by the deployment handler:
`json.Marshal(map[string]interface\x7b\x7d\x7b"replicas": spec.Replicas\x7d)`. -/
def deploymentMetadata (d : Deployment) : String :=
  "\x7b\"replicas\":" ++ jsonOptInt d.replicas ++ "\x7d"

/-- handleDeploymentEvent: skip excluded namespaces; MODIFIED stores one
event exactly when the policy fires; ADDED/DELETED always store one event. -/
def handleDeploymentEvent (now : Int) (t : Transition Deployment) : List ChangeEvent :=
  if excludedNs (t.primary).namespace' then []
  else
    match t with
    | .modified o n =>
      if (detectMeaningfulChanges o n).1 then
        [{ timestamp := now, namespace' := n.namespace', kind := "Deployment",
           name := n.name, action := "MODIFIED",
           diff := (detectMeaningfulChanges o n).2,
           imageBefore := ExtractImage o, imageAfter := ExtractImage n,
           metadata := deploymentMetadata n }]
      else []
    | .added n =>
      [{ timestamp := now, namespace' := n.namespace', kind := "Deployment",
         name := n.name, action := "ADDED", diff := "Deployment created",
         imageAfter := ExtractImage n, metadata := deploymentMetadata n }]
    | .deleted o =>
      [{ timestamp := now, namespace' := o.namespace', kind := "Deployment",
         name := o.name, action := "DELETED", diff := "Deployment deleted",
         metadata := deploymentMetadata o }]

/-- ConfigMap snapshot. -/
structure ConfigMap where
  namespace' : String
  name : String
  data : List (String × String) := []
deriving DecidableEq, Repr

/-- Keys present in the new map but not the old (Go `addedKeys` loop). -/
def cmAddedKeys (old new : List (String × String)) : List String :=
  (keysOf new).filter (fun k => !(keysOf old).contains k)

/-- Keys present in the old map but not the new (Go `removedKeys` loop). -/
def cmRemovedKeys (old new : List (String × String)) : List String :=
  (keysOf old).filter (fun k => !(keysOf new).contains k)

/-- Keys whose value changed (Go `modifiedKeys` loop over the new map). -/
def cmModifiedKeys (old new : List (String × String)) : List String :=
  new.filterMap (fun kv => if valueChanged old kv then some kv.1 else none)

/-- Per-key before/after detail (Go `detailedChanges` loop). -/
def cmDetailedChanges (old new : List (String × String)) : List String :=
  new.filterMap (fun kv =>
    match List.lookup kv.1 old with
    | some ov => if ov != kv.2 then
        some ("[" ++ kv.1 ++ "]\n- " ++ ov ++ "\n+ " ++ kv.2) else none
    | none => none)

/-- detectConfigMapChanges: key additions, removals, or value changes; the
description reports added keys first, else removed keys, else the modified
keys with full before/after detail. -/
def detectConfigMapChanges (oldCM newCM : ConfigMap) : Bool × String :=
  let addedKeys := cmAddedKeys oldCM.data newCM.data
  let removedKeys := cmRemovedKeys oldCM.data newCM.data
  let modifiedKeys := cmModifiedKeys oldCM.data newCM.data
  let detailedChanges := cmDetailedChanges oldCM.data newCM.data
  if addedKeys.isEmpty && removedKeys.isEmpty && modifiedKeys.isEmpty then (false, "")
  else
    let changeDesc :=
      if !addedKeys.isEmpty then "Keys added: " ++ goStrSlice addedKeys
      else if !removedKeys.isEmpty then "Keys removed: " ++ goStrSlice removedKeys
      else if !detailedChanges.isEmpty then
        "Keys modified: " ++ goStrSlice modifiedKeys ++ "\n\n" ++
          String.intercalate "\n\n" detailedChanges
      else ""
    (true, changeDesc)

/-- Metadata written by the configmap handler: `\x7b"keys":[...]\x7d`. -/
def configMapMetadata (cm : ConfigMap) : String :=
  "\x7b\"keys\":" ++ jsonStrList (keysOf cm.data) ++ "\x7d"

/-- handleConfigMapEvent. -/
def handleConfigMapEvent (now : Int) (t : Transition ConfigMap) : List ChangeEvent :=
  if excludedNs (t.primary).namespace' then []
  else
    match t with
    | .modified o n =>
      if (detectConfigMapChanges o n).1 then
        [{ timestamp := now, namespace' := n.namespace', kind := "ConfigMap",
           name := n.name, action := "MODIFIED",
           diff := (detectConfigMapChanges o n).2,
           metadata := configMapMetadata n }]
      else []
    | .added n =>
      [{ timestamp := now, namespace' := n.namespace', kind := "ConfigMap",
         name := n.name, action := "ADDED",
         diff := "ConfigMap created with " ++ toString (keysOf n.data).length ++ " key(s)",
         metadata := configMapMetadata n }]
    | .deleted o =>
      [{ timestamp := now, namespace' := o.namespace', kind := "ConfigMap",
         name := o.name, action := "DELETED", diff := "ConfigMap deleted",
         metadata := configMapMetadata o }]

/-- Secret snapshot.  `data` values are the secret byte strings;
`ownerReferences` is read only through `len`. -/
structure Secret where
  namespace' : String
  name : String
  type : String := "Opaque"
  data : List (String × String) := []
  ownerReferences : List String := []
deriving DecidableEq, Repr

/-- The platform-managed check in handleSecretEvent: service-account tokens,
helm release payloads, and secrets with an owning controller are skipped. -/
def secretSkip (s : Secret) : Bool :=
  s.type == "kubernetes.io/service-account-token" ||
  s.type == "helm.sh/release.v1" ||
  s.ownerReferences.length > 0

/-- Keys whose value bytes changed (Go loop over the new secret's map,
comparing `string(oldVal) != string(newVal)`). -/
def secretModifiedKeys (old new : List (String × String)) : List String :=
  new.filterMap (fun kv => if valueChanged old kv then some kv.1 else none)

/-- detectSecretChanges: a type change short-circuits; otherwise added keys,
then removed keys, then modified key names (values never shown). -/
def detectSecretChanges (oldSecret newSecret : Secret) : Bool × String :=
  if oldSecret.type ≠ newSecret.type then
    (true, "Secret type changed: " ++ oldSecret.type ++ " → " ++ newSecret.type)
  else
    let addedKeys := cmAddedKeys oldSecret.data newSecret.data
    let removedKeys := cmRemovedKeys oldSecret.data newSecret.data
    let modifiedKeys := secretModifiedKeys oldSecret.data newSecret.data
    if addedKeys.isEmpty && removedKeys.isEmpty && modifiedKeys.isEmpty then (false, "")
    else if !addedKeys.isEmpty then (true, "Keys added: " ++ goStrSlice addedKeys)
    else if !removedKeys.isEmpty then (true, "Keys removed: " ++ goStrSlice removedKeys)
    else if !modifiedKeys.isEmpty then
      (true, "Keys modified: " ++ goStrSlice modifiedKeys ++
        "\n\n(Secret values are not displayed for security)")
    else (false, "")

/-- Metadata written by the secret handler:
`json.Marshal(\x7b"type": type, "keys": keys\x7d)` — key names and type only. -/
def secretEventMetadata (s : Secret) : String :=
  "\x7b\"keys\":" ++ jsonStrList (keysOf s.data) ++ ",\"type\":" ++ jsonStr s.type ++ "\x7d"

/-- handleSecretEvent: beyond the namespace filter, platform-managed secrets
are skipped entirely. -/
def handleSecretEvent (now : Int) (t : Transition Secret) : List ChangeEvent :=
  if excludedNs (t.primary).namespace' then []
  else if secretSkip t.primary then []
  else
    match t with
    | .modified o n =>
      if (detectSecretChanges o n).1 then
        [{ timestamp := now, namespace' := n.namespace', kind := "Secret",
           name := n.name, action := "MODIFIED",
           diff := (detectSecretChanges o n).2,
           metadata := secretEventMetadata n }]
      else []
    | .added n =>
      [{ timestamp := now, namespace' := n.namespace', kind := "Secret",
         name := n.name, action := "ADDED",
         diff := "Secret created (" ++ n.type ++ ") with " ++
           toString (keysOf n.data).length ++ " key(s)",
         metadata := secretEventMetadata n }]
    | .deleted o =>
      [{ timestamp := now, namespace' := o.namespace', kind := "Secret",
         name := o.name, action := "DELETED", diff := "Secret deleted",
         metadata := secretEventMetadata o }]

/-- ServicePort (the fields `detectServiceChanges` reads; `targetPort` is the
`IntVal` of the intstr). -/
structure ServicePort where
  name : String := ""
  port : Int := 0
  targetPort : Int := 0
deriving DecidableEq, Repr

/-- Service snapshot. -/
structure Service where
  namespace' : String
  name : String
  type : String := ""
  selector : List (String × String) := []
  ports : List ServicePort := []
  externalIPs : List String := []
deriving DecidableEq, Repr

/-- detectServiceChanges: type, selector (compared as `%v` renderings),
ports (count, else per-index port/targetPort), external IPs (joined). -/
def detectServiceChanges (oldSvc newSvc : Service) : Bool × String :=
  let typeChanges :=
    if oldSvc.type ≠ newSvc.type then
      ["Type: " ++ oldSvc.type ++ " → " ++ newSvc.type] else []
  let selectorChanges :=
    if renderGoMap oldSvc.selector ≠ renderGoMap newSvc.selector then
      ["Selector changed"] else []
  let portChanges :=
    if oldSvc.ports.length ≠ newSvc.ports.length then
      ["Ports count: " ++ toString oldSvc.ports.length ++ " → " ++ toString newSvc.ports.length]
    else
      (List.zip oldSvc.ports newSvc.ports).filterMap (fun pq =>
        if pq.1.port ≠ pq.2.port ∨ pq.1.targetPort ≠ pq.2.targetPort then
          some ("Port " ++ pq.2.name ++ ": " ++ toString pq.1.port ++ "/" ++
            toString pq.1.targetPort ++ " → " ++ toString pq.2.port ++ "/" ++
            toString pq.2.targetPort)
        else none)
  let ipChanges :=
    let oldIPs := String.intercalate "," oldSvc.externalIPs
    let newIPs := String.intercalate "," newSvc.externalIPs
    if oldIPs ≠ newIPs then ["External IPs: " ++ oldIPs ++ " → " ++ newIPs] else []
  match typeChanges ++ selectorChanges ++ portChanges ++ ipChanges with
  | [] => (false, "")
  | changes => (true, "Service configuration changed:\n" ++ String.intercalate "\n" changes)

/-- handleServiceEvent.  The ADDED/DELETED tail is unconditional in the Go
code; the `diff` it writes is the action string itself. -/
def handleServiceEvent (now : Int) (t : Transition Service) : List ChangeEvent :=
  if excludedNs (t.primary).namespace' then []
  else
    match t with
    | .modified o n =>
      if (detectServiceChanges o n).1 then
        [{ timestamp := now, namespace' := n.namespace', kind := "Service",
           name := n.name, action := "MODIFIED", diff := (detectServiceChanges o n).2 }]
      else []
    | .added n =>
      [{ timestamp := now, namespace' := n.namespace', kind := "Service",
         name := n.name, action := "ADDED", diff := "ADDED" }]
    | .deleted o =>
      [{ timestamp := now, namespace' := o.namespace', kind := "Service",
         name := o.name, action := "DELETED", diff := "DELETED" }]

/-- One HTTP path of an ingress rule: the optional backend service
(name, port number). -/
structure HTTPIngressPath where
  service : Option (String × Int) := none
deriving DecidableEq, Repr

/-- One ingress rule: host and the optional HTTP path list. -/
structure IngressRule where
  host : String := ""
  http : Option (List HTTPIngressPath) := none
deriving DecidableEq, Repr

/-- Ingress snapshot.  `tlsCount` stands for `len(Spec.TLS)`, the only use of
the TLS block in the policy.  `annots` models `ObjectMeta.Annotations`. -/
structure Ingress where
  namespace' : String
  name : String
  annots : List (String × String) := []
  rules : List IngressRule := []
  tlsCount : Nat := 0
deriving DecidableEq, Repr

/-- The fixed allow-list of important annotation keys (the literal
`konghq.com/` entry is looked up as an exact key, as in the source). -/
def importantAnnotationKeys : List String :=
  ["nginx.ingress.kubernetes.io/rewrite-target",
   "cert-manager.io/cluster-issuer",
   "kubernetes.io/ingress.class",
   "konghq.com/"]

/-- detectIngressChanges: allow-listed annotation presence/value changes,
rule count or per-rule host/path/backend changes, TLS block count change. -/
def detectIngressChanges (oldIng newIng : Ingress) : Bool × String :=
  let annotChanges := importantAnnotationKeys.filterMap (fun key =>
    match List.lookup key oldIng.annots, List.lookup key newIng.annots with
    | some ov, some nv =>
      if ov ≠ nv then
        some ("Annotation " ++ key ++ ": \x27" ++ ov ++ "\x27 → \x27" ++ nv ++ "\x27")
      else none
    | some _, none => some ("Annotation " ++ key ++ " removed")
    | none, some nv =>
      some ("Annotation " ++ key ++ ": \x27\x27 → \x27" ++ nv ++ "\x27")
    | none, none => none)
  let ruleChanges :=
    if oldIng.rules.length ≠ newIng.rules.length then
      ["Rules count: " ++ toString oldIng.rules.length ++ " → " ++ toString newIng.rules.length]
    else
      (List.zip oldIng.rules newIng.rules).flatMap (fun rr =>
        (if rr.1.host ≠ rr.2.host then
          ["Host changed: " ++ rr.1.host ++ " → " ++ rr.2.host] else []) ++
        (match rr.1.http, rr.2.http with
         | some oldPaths, some newPaths =>
           if oldPaths.length ≠ newPaths.length then
             ["Paths count for " ++ rr.2.host ++ ": " ++ toString oldPaths.length ++
               " → " ++ toString newPaths.length]
           else
             (List.zip oldPaths newPaths).flatMap (fun pp =>
               match pp.1.service, pp.2.service with
               | some os, some ns =>
                 (if os.1 ≠ ns.1 then
                   ["Backend service: " ++ os.1 ++ " → " ++ ns.1] else []) ++
                 (if os.2 ≠ ns.2 then
                   ["Backend port: " ++ toString os.2 ++ " → " ++ toString ns.2] else [])
               | _, _ => [])
         | _, _ => []))
  let tlsChanges :=
    if oldIng.tlsCount ≠ newIng.tlsCount then
      ["TLS config count: " ++ toString oldIng.tlsCount ++ " → " ++ toString newIng.tlsCount]
    else []
  match annotChanges ++ ruleChanges ++ tlsChanges with
  | [] => (false, "")
  | changes => (true, "Ingress configuration changed:\n" ++ String.intercalate "\n" changes)

/-- handleIngressEvent. -/
def handleIngressEvent (now : Int) (t : Transition Ingress) : List ChangeEvent :=
  if excludedNs (t.primary).namespace' then []
  else
    match t with
    | .modified o n =>
      if (detectIngressChanges o n).1 then
        [{ timestamp := now, namespace' := n.namespace', kind := "Ingress",
           name := n.name, action := "MODIFIED", diff := (detectIngressChanges o n).2 }]
      else []
    | .added n =>
      [{ timestamp := now, namespace' := n.namespace', kind := "Ingress",
         name := n.name, action := "ADDED", diff := "ADDED" }]
    | .deleted o =>
      [{ timestamp := now, namespace' := o.namespace', kind := "Ingress",
         name := o.name, action := "DELETED", diff := "DELETED" }]

/-- StatefulSet snapshot.  `volumeClaimTemplates` is read only through
`len`; entries stand for template names. -/
structure StatefulSet where
  namespace' : String
  name : String
  replicas : Option Int := none
  containers : List Container := []
  serviceName : String := ""
  volumeClaimTemplates : List String := []
  updateStrategy : String := ""
deriving DecidableEq, Repr

/-- Per-index container image comparison shared by the StatefulSet,
DaemonSet, CronJob and Job policies (`for i, newContainer := range new`
guarded by `i < len(old)`). -/
def containerImageChanges (old new : List Container) : List String :=
  (List.zip old new).filterMap (fun cc =>
    if cc.1.image ≠ cc.2.image then
      some ("Container " ++ cc.2.name ++ " image: " ++ cc.1.image ++ " → " ++ cc.2.image)
    else none)

/-- detectStatefulSetChanges: replicas (both pointers non-nil), images,
service name, volume-claim-template count, update strategy. -/
def detectStatefulSetChanges (oldSS newSS : StatefulSet) : Bool × String :=
  let replicaChanges :=
    match oldSS.replicas, newSS.replicas with
    | some o, some n =>
      if o ≠ n then ["Replicas: " ++ toString o ++ " → " ++ toString n] else []
    | _, _ => []
  let imageChanges :=
    if oldSS.containers.length > 0 ∧ newSS.containers.length > 0 then
      containerImageChanges oldSS.containers newSS.containers
    else []
  let serviceChanges :=
    if oldSS.serviceName ≠ newSS.serviceName then
      ["Service name: " ++ oldSS.serviceName ++ " → " ++ newSS.serviceName] else []
  let vctChanges :=
    if oldSS.volumeClaimTemplates.length ≠ newSS.volumeClaimTemplates.length then
      ["Volume claim templates: " ++ toString oldSS.volumeClaimTemplates.length ++
        " → " ++ toString newSS.volumeClaimTemplates.length]
    else []
  let strategyChanges :=
    if oldSS.updateStrategy ≠ newSS.updateStrategy then
      ["Update strategy: " ++ oldSS.updateStrategy ++ " → " ++ newSS.updateStrategy] else []
  match replicaChanges ++ imageChanges ++ serviceChanges ++ vctChanges ++ strategyChanges with
  | [] => (false, "")
  | changes => (true, "StatefulSet configuration changed:\n" ++ String.intercalate "\n" changes)

/-- handleStatefulSetEvent: the MODIFIED branch also records a replica-count
metadata object; the ADDED/DELETED tail records none. -/
def handleStatefulSetEvent (now : Int) (t : Transition StatefulSet) : List ChangeEvent :=
  if excludedNs (t.primary).namespace' then []
  else
    match t with
    | .modified o n =>
      if (detectStatefulSetChanges o n).1 then
        [{ timestamp := now, namespace' := n.namespace', kind := "StatefulSet",
           name := n.name, action := "MODIFIED", diff := (detectStatefulSetChanges o n).2,
           metadata := "\x7b\"replicas\":" ++ jsonOptInt n.replicas ++ "\x7d" }]
      else []
    | .added n =>
      [{ timestamp := now, namespace' := n.namespace', kind := "StatefulSet",
         name := n.name, action := "ADDED", diff := "ADDED" }]
    | .deleted o =>
      [{ timestamp := now, namespace' := o.namespace', kind := "StatefulSet",
         name := o.name, action := "DELETED", diff := "DELETED" }]

/-- DaemonSet snapshot. -/
structure DaemonSet where
  namespace' : String
  name : String
  containers : List Container := []
  updateStrategy : String := ""
  nodeSelector : List (String × String) := []
deriving DecidableEq, Repr

/-- detectDaemonSetChanges: images, update strategy, node selector
(compared as `%v` renderings). -/
def detectDaemonSetChanges (oldDS newDS : DaemonSet) : Bool × String :=
  let imageChanges :=
    if oldDS.containers.length > 0 ∧ newDS.containers.length > 0 then
      containerImageChanges oldDS.containers newDS.containers
    else []
  let strategyChanges :=
    if oldDS.updateStrategy ≠ newDS.updateStrategy then
      ["Update strategy: " ++ oldDS.updateStrategy ++ " → " ++ newDS.updateStrategy] else []
  let selectorChanges :=
    if renderGoMap oldDS.nodeSelector ≠ renderGoMap newDS.nodeSelector then
      ["Node selector changed"] else []
  match imageChanges ++ strategyChanges ++ selectorChanges with
  | [] => (false, "")
  | changes => (true, "DaemonSet configuration changed:\n" ++ String.intercalate "\n" changes)

/-- handleDaemonSetEvent. -/
def handleDaemonSetEvent (now : Int) (t : Transition DaemonSet) : List ChangeEvent :=
  if excludedNs (t.primary).namespace' then []
  else
    match t with
    | .modified o n =>
      if (detectDaemonSetChanges o n).1 then
        [{ timestamp := now, namespace' := n.namespace', kind := "DaemonSet",
           name := n.name, action := "MODIFIED", diff := (detectDaemonSetChanges o n).2 }]
      else []
    | .added n =>
      [{ timestamp := now, namespace' := n.namespace', kind := "DaemonSet",
         name := n.name, action := "ADDED", diff := "ADDED" }]
    | .deleted o =>
      [{ timestamp := now, namespace' := o.namespace', kind := "DaemonSet",
         name := o.name, action := "DELETED", diff := "DELETED" }]

/-- CronJob snapshot.  `containers` are those of the job template's pod
spec; `suspend` is the optional suspend flag pointer. -/
structure CronJob where
  namespace' : String
  name : String
  schedule : String := ""
  suspend : Option Bool := none
  containers : List Container := []
  concurrencyPolicy : String := ""
deriving DecidableEq, Repr

/-- detectCronJobChanges: schedule, suspend flag (nil reads as false),
template images, concurrency policy. -/
def detectCronJobChanges (oldCJ newCJ : CronJob) : Bool × String :=
  let scheduleChanges :=
    if oldCJ.schedule ≠ newCJ.schedule then
      ["Schedule: " ++ oldCJ.schedule ++ " → " ++ newCJ.schedule] else []
  let suspendChanges :=
    let oldSuspend := oldCJ.suspend.getD false
    let newSuspend := newCJ.suspend.getD false
    if oldSuspend ≠ newSuspend then
      ["Suspend: " ++ goBool oldSuspend ++ " → " ++ goBool newSuspend] else []
  let imageChanges :=
    if oldCJ.containers.length > 0 ∧ newCJ.containers.length > 0 then
      containerImageChanges oldCJ.containers newCJ.containers
    else []
  let policyChanges :=
    if oldCJ.concurrencyPolicy ≠ newCJ.concurrencyPolicy then
      ["Concurrency policy: " ++ oldCJ.concurrencyPolicy ++ " → " ++ newCJ.concurrencyPolicy]
    else []
  match scheduleChanges ++ suspendChanges ++ imageChanges ++ policyChanges with
  | [] => (false, "")
  | changes => (true, "CronJob configuration changed:\n" ++ String.intercalate "\n" changes)

/-- handleCronJobEvent. -/
def handleCronJobEvent (now : Int) (t : Transition CronJob) : List ChangeEvent :=
  if excludedNs (t.primary).namespace' then []
  else
    match t with
    | .modified o n =>
      if (detectCronJobChanges o n).1 then
        [{ timestamp := now, namespace' := n.namespace', kind := "CronJob",
           name := n.name, action := "MODIFIED", diff := (detectCronJobChanges o n).2 }]
      else []
    | .added n =>
      [{ timestamp := now, namespace' := n.namespace', kind := "CronJob",
         name := n.name, action := "ADDED", diff := "ADDED" }]
    | .deleted o =>
      [{ timestamp := now, namespace' := o.namespace', kind := "CronJob",
         name := o.name, action := "DELETED", diff := "DELETED" }]

/-- Job status counters. -/
structure JobStatus where
  succeeded : Int := 0
  failed : Int := 0
deriving DecidableEq, Repr

/-- Job snapshot. -/
structure Job where
  namespace' : String
  name : String
  parallelism : Option Int := none
  completions : Option Int := none
  backoffLimit : Option Int := none
  containers : List Container := []
  status : JobStatus := {}
deriving DecidableEq, Repr

/-- detectJobChanges: parallelism, completions, images, backoff limit
(pointer fields compared only when both sides are non-nil). -/
def detectJobChanges (oldJob newJob : Job) : Bool × String :=
  let parallelismChanges :=
    match oldJob.parallelism, newJob.parallelism with
    | some o, some n =>
      if o ≠ n then ["Parallelism: " ++ toString o ++ " → " ++ toString n] else []
    | _, _ => []
  let completionsChanges :=
    match oldJob.completions, newJob.completions with
    | some o, some n =>
      if o ≠ n then ["Completions: " ++ toString o ++ " → " ++ toString n] else []
    | _, _ => []
  let imageChanges :=
    if oldJob.containers.length > 0 ∧ newJob.containers.length > 0 then
      containerImageChanges oldJob.containers newJob.containers
    else []
  let backoffChanges :=
    match oldJob.backoffLimit, newJob.backoffLimit with
    | some o, some n =>
      if o ≠ n then ["Backoff limit: " ++ toString o ++ " → " ++ toString n] else []
    | _, _ => []
  match parallelismChanges ++ completionsChanges ++ imageChanges ++ backoffChanges with
  | [] => (false, "")
  | changes => (true, "Job configuration changed:\n" ++ String.intercalate "\n" changes)

/-- handleJobEvent.  A MODIFIED transition is dropped before the policy runs
whenever the new snapshot's `status.succeeded` or `status.failed` is
positive (the source comments this as skipping status-only updates, but the
test does not check that only status fields changed). -/
def handleJobEvent (now : Int) (t : Transition Job) : List ChangeEvent :=
  if excludedNs (t.primary).namespace' then []
  else
    match t with
    | .modified o n =>
      if n.status.succeeded > 0 ∨ n.status.failed > 0 then []
      else if (detectJobChanges o n).1 then
        [{ timestamp := now, namespace' := n.namespace', kind := "Job",
           name := n.name, action := "MODIFIED", diff := (detectJobChanges o n).2 }]
      else []
    | .added n =>
      [{ timestamp := now, namespace' := n.namespace', kind := "Job",
         name := n.name, action := "ADDED", diff := "ADDED" }]
    | .deleted o =>
      [{ timestamp := now, namespace' := o.namespace', kind := "Job",
         name := o.name, action := "DELETED", diff := "DELETED" }]

/-- Insert an event into a list already sorted by timestamp descending,
keeping it sorted; an event goes after every event with an equal or larger
timestamp.  This realises the deterministic tie order of the model
(SQLite's `ORDER BY timestamp DESC` leaves tie order unspecified). -/
def insertByTsDesc : List ChangeEvent → ChangeEvent → List ChangeEvent
  | [], e => [e]
  | x :: xs, e =>
    if e.timestamp > x.timestamp then e :: x :: xs else x :: insertByTsDesc xs e

/-- Sort events by timestamp descending (stable). -/
def sortByTsDesc (l : List ChangeEvent) : List ChangeEvent :=
  l.foldl insertByTsDesc []

/-- Sortedness by timestamp descending. -/
def TsSortedDesc (l : List ChangeEvent) : Prop :=
  List.Pairwise (fun a b => b.timestamp ≤ a.timestamp) l

/-- The WHERE clause both GetEvents and GetTotalCount build: each filter
field adds its conjunct only when set, `name` matches as a
case-insensitive substring (`LIKE '%name%'`), times as a closed range. -/
def matchesFilter (f : Filter) (e : ChangeEvent) : Bool :=
  (f.namespace' == "" || e.namespace' == f.namespace') &&
  (f.kind == "" || e.kind == f.kind) &&
  (f.name == "" || strContains e.name.toLower f.name.toLower) &&
  (f.action == "" || e.action == f.action) &&
  (f.startTime == 0 || f.startTime ≤ e.timestamp) &&
  (f.endTime == 0 || e.timestamp ≤ f.endTime)

/-- GetEvents (internal/storage/sqlite.go): filter, order by timestamp
descending, then `LIMIT`/`OFFSET`, each appended only when positive.  When
`offset > 0` but `limit = 0` the built SQL has an `OFFSET` with no `LIMIT`,
which SQLite rejects, so the call errors (`none`). -/
def GetEvents (db : List ChangeEvent) (f : Filter) : Option (List ChangeEvent) :=
  let ms := sortByTsDesc (db.filter (matchesFilter f))
  if f.limit > 0 then
    if f.offset > 0 then some ((ms.drop f.offset.toNat).take f.limit.toNat)
    else some (ms.take f.limit.toNat)
  else
    if f.offset > 0 then none
    else some ms

/-- GetTotalCount: the identical WHERE clause with `SELECT COUNT(*)`;
`limit` and `offset` are never appended. -/
def GetTotalCount (db : List ChangeEvent) (f : Filter) : Nat :=
  (db.filter (matchesFilter f)).length

/-- CleanupOldEvents: `DELETE FROM change_events WHERE timestamp < cutoff`
with `cutoff = now - retentionDays days`, returning the rows-affected
count.  Returns the surviving table and the deleted count. -/
def CleanupOldEvents (now retentionDays : Int) (db : List ChangeEvent) :
    List ChangeEvent × Nat :=
  let cutoffDate := now - retentionDays * 86400
  (db.filter (fun e => !decide (e.timestamp < cutoffDate)),
   (db.filter (fun e => decide (e.timestamp < cutoffDate))).length)

/-- SlackNotifier (internal/notifier): webhook URL and the enabled flag. -/
structure SlackNotifier where
  webhookURL : String
  enabled : Bool
deriving DecidableEq, Repr

/-- NewSlackNotifier: enabled exactly when a webhook URL is configured. -/
def NewSlackNotifier (webhookURL : String) : SlackNotifier :=
  { webhookURL := webhookURL, enabled := webhookURL != "" }

/-- IsEnabled. -/
def SlackNotifier.IsEnabled (s : SlackNotifier) : Bool := s.enabled

/-- One field of a Slack attachment. -/
structure SlackField where
  title : String
  value : String
  short : Bool
deriving DecidableEq, Repr

/-- One Slack attachment. -/
structure SlackAttachment where
  color : String := ""
  title : String := ""
  text : String := ""
  fields : List SlackField := []
deriving DecidableEq, Repr

/-- The Slack message payload. -/
structure SlackMessage where
  text : String := ""
  attachments : List SlackAttachment := []
deriving DecidableEq, Repr

/-- getColorForAction. -/
def getColorForAction (action : String) : String :=
  if action == "ADDED" then "good"
  else if action == "DELETED" then "danger"
  else if action == "MODIFIED" then "warning"
  else "#808080"

/-- getEmojiForKind. -/
def getEmojiForKind (kind : String) : String :=
  if kind == "Deployment" then "🚀"
  else if kind == "ConfigMap" then "📝"
  else if kind == "Secret" then "🔐"
  else if kind == "Service" then "🌐"
  else if kind == "Ingress" then "🚪"
  else if kind == "StatefulSet" then "💾"
  else if kind == "DaemonSet" then "👹"
  else if kind == "CronJob" then "⏰"
  else if kind == "Job" then "⚙️"
  else "📦"

/-- NotifyChange: `none` models "no HTTP delivery attempted and nil error
returned"; `some msg` is the payload posted to the webhook.  Disabled
notifiers and actions other than MODIFIED/DELETED never deliver. -/
def NotifyChange (s : SlackNotifier) (event : ChangeEvent) : Option SlackMessage :=
  if !s.enabled then none
  else if event.action != "MODIFIED" && event.action != "DELETED" then none
  else
    let baseFields : List SlackField :=
      [{ title := "Resource",
         value := "`" ++ event.namespace' ++ "/" ++ event.name ++ "`", short := true },
       { title := "Action", value := event.action, short := true }]
    let imageFields : List SlackField :=
      if event.imageBefore != "" && event.imageAfter != "" then
        [{ title := "Image Change",
           value := "From: `" ++ event.imageBefore ++ "`\nTo: `" ++ event.imageAfter ++ "`",
           short := false }]
      else []
    let text :=
      if event.diff != "" then
        let diff :=
          if event.diff.length > 500 then
            (event.diff.take 500) ++ "...\n_(truncated)_"
          else event.diff
        "```\n" ++ diff ++ "\n```"
      else ""
    some { attachments :=
      [{ color := getColorForAction event.action,
         title := getEmojiForKind event.kind ++ " " ++ event.kind ++ " " ++
           event.action ++ " in " ++ event.namespace',
         text := text,
         fields := baseFields ++ imageFields }] }

/-- saveAndNotify: the store write runs first; on failure its error is
returned and the notifier is never consulted.  On success the event is
appended and a notification goroutine is launched exactly when the notifier
is enabled.  The store-write outcome is injected as `saveErr` (the database
disposition is outside the model).  Result: (table after the call, error
returned, whether a notification was scheduled). -/
def saveAndNotify (db : List ChangeEvent) (saveErr : Option String)
    (notifier : SlackNotifier) (event : ChangeEvent) :
    List ChangeEvent × Option String × Bool :=
  match saveErr with
  | some err => (db, some err, false)
  | none => (db ++ [event], none, notifier.IsEnabled)

/-! Helper lemmas about the model's list operations. -/

theorem insertByTsDesc_perm (e : ChangeEvent) :
    ∀ l : List ChangeEvent, List.Perm (insertByTsDesc l e) (e :: l)
  | [] => List.Perm.refl _
  | x :: xs => by
    unfold insertByTsDesc
    split
    · exact List.Perm.refl _
    · exact ((insertByTsDesc_perm e xs).cons x).trans (List.Perm.swap e x xs)

theorem foldl_insertByTsDesc_perm :
    ∀ (l acc : List ChangeEvent), List.Perm (l.foldl insertByTsDesc acc) (acc ++ l) := by
  intro l
  induction l with
  | nil => intro acc; simp
  | cons a l ih =>
    intro acc
    exact (ih (insertByTsDesc acc a)).trans
      (((insertByTsDesc_perm a acc).append_right l).trans List.perm_middle.symm)

theorem sortByTsDesc_perm (l : List ChangeEvent) : List.Perm (sortByTsDesc l) l := by
  simpa [sortByTsDesc] using foldl_insertByTsDesc_perm l []

theorem insertByTsDesc_sorted (e : ChangeEvent) :
    ∀ l : List ChangeEvent, TsSortedDesc l → TsSortedDesc (insertByTsDesc l e) := by
  intro l
  induction l with
  | nil => intro _; simp [insertByTsDesc, TsSortedDesc]
  | cons x xs ih =>
    intro h
    rw [TsSortedDesc, List.pairwise_cons] at h
    unfold insertByTsDesc
    split
    · rename_i hgt
      rw [TsSortedDesc, List.pairwise_cons]
      refine ⟨?_, List.pairwise_cons.mpr ⟨h.1, h.2⟩⟩
      intro b hb
      rcases List.mem_cons.mp hb with hb1 | hb1
      · subst hb1; omega
      · have := h.1 b hb1; omega
    · rename_i hle
      rw [TsSortedDesc, List.pairwise_cons]
      refine ⟨?_, ih h.2⟩
      intro b hb
      rcases List.mem_cons.mp ((insertByTsDesc_perm e xs).mem_iff.mp hb) with hb1 | hb1
      · subst hb1; omega
      · exact h.1 b hb1

theorem foldl_insertByTsDesc_sorted :
    ∀ (l acc : List ChangeEvent), TsSortedDesc acc →
      TsSortedDesc (l.foldl insertByTsDesc acc) := by
  intro l
  induction l with
  | nil => intro acc h; simpa using h
  | cons a l ih =>
    intro acc h
    exact ih (insertByTsDesc acc a) (insertByTsDesc_sorted a acc h)

theorem sortByTsDesc_sorted (l : List ChangeEvent) : TsSortedDesc (sortByTsDesc l) :=
  foldl_insertByTsDesc_sorted l [] (by simp [TsSortedDesc])

theorem length_filter_add_length_filter_not (p : α → Bool) (l : List α) :
    (l.filter p).length + (l.filter (fun a => !p a)).length = l.length := by
  induction l with
  | nil => rfl
  | cons a l ih =>
    by_cases h : p a <;> simp [List.filter, h] <;> omega

/-- A lookup on a map with `Nodup` keys returns the value of the member
pair. -/
theorem lookup_eq_of_mem_of_nodup {m : List (String × String)} {k v : String}
    (hn : (m.map Prod.fst).Nodup) (h : (k, v) ∈ m) : List.lookup k m = some v := by
  induction m with
  | nil => cases h
  | cons p t ih =>
    rcases List.mem_cons.mp h with h1 | h1
    · subst h1
      simp [List.lookup]
    · have hk : k ≠ p.1 := by
        intro hkp
        have hmem : k ∈ t.map Prod.fst := List.mem_map.mpr ⟨(k, v), h1, rfl⟩
        rw [List.map_cons, List.nodup_cons] at hn
        exact hn.1 (hkp ▸ hmem)
      rw [List.map_cons, List.nodup_cons] at hn
      simpa [List.lookup, beq_false_of_ne hk] using ih hn.2 h1

/-- A successful lookup exhibits a member pair. -/
theorem mem_of_lookup_eq_some {m : List (String × String)} {k v : String}
    (h : List.lookup k m = some v) : (k, v) ∈ m := by
  induction m with
  | nil => simp [List.lookup] at h
  | cons p t ih =>
    obtain ⟨p1, p2⟩ := p
    by_cases hk : k = p1
    · subst hk
      have hv : p2 = v := by simpa [List.lookup] using h
      subst hv
      exact List.mem_cons_self _ _
    · exact List.mem_cons.mpr
        (Or.inr (ih (by simpa [List.lookup, beq_false_of_ne hk] using h)))

/-- Keys of a map are exactly the keys with a successful lookup. -/
theorem mem_keys_iff_lookup_isSome {m : List (String × String)} {k : String} :
    k ∈ keysOf m ↔ (List.lookup k m).isSome := by
  induction m with
  | nil => simp [keysOf, List.lookup]
  | cons p t ih =>
    obtain ⟨p1, p2⟩ := p
    by_cases hk : k = p1
    · subst hk
      simp [keysOf, List.lookup]
    · simp only [keysOf, List.map_cons, List.mem_cons, List.lookup,
        beq_false_of_ne hk] at ih ⊢
      simp only [hk, false_or]
      exact ih

/-! Claim theorems. -/

/-- C6: `CleanupOldEvents now D` deletes exactly the stored events with
timestamp older than `now - D` days, keeps every other event unchanged (a
sublist of the table, membership preserved), returns exactly the number
deleted, and a second run on the resulting table deletes nothing and
returns 0. -/
theorem CleanupOldEvents_exact_and_idempotent (now retentionDays : Int)
    (db : List ChangeEvent) :
    (∀ e ∈ (CleanupOldEvents now retentionDays db).1,
        now - retentionDays * 86400 ≤ e.timestamp) ∧
    List.Sublist (CleanupOldEvents now retentionDays db).1 db ∧
    (∀ e ∈ db, now - retentionDays * 86400 ≤ e.timestamp →
        e ∈ (CleanupOldEvents now retentionDays db).1) ∧
    (CleanupOldEvents now retentionDays db).2 +
        (CleanupOldEvents now retentionDays db).1.length = db.length ∧
    (CleanupOldEvents now retentionDays db).2 =
        (db.filter (fun e =>
          decide (e.timestamp < now - retentionDays * 86400))).length ∧
    CleanupOldEvents now retentionDays (CleanupOldEvents now retentionDays db).1 =
        ((CleanupOldEvents now retentionDays db).1, 0) := by
  refine ⟨?_, ?_, ?_, ?_, rfl, ?_⟩
  · intro e he
    have h2 := (List.mem_filter.mp he).2
    simp only [Bool.not_eq_true', decide_eq_false_iff_not, not_lt] at h2
    exact h2
  · exact List.filter_sublist db
  · intro e he hts
    exact List.mem_filter.mpr ⟨he, by simpa using hts⟩
  · have h := length_filter_add_length_filter_not
      (fun e => decide (e.timestamp < now - retentionDays * 86400)) db
    simpa [CleanupOldEvents] using h
  · simp only [CleanupOldEvents, List.filter_filter]
    rw [Prod.mk.injEq]
    constructor
    · exact List.filter_congr (by intro a _; simp [Bool.and_self])
    · have : ∀ a : ChangeEvent,
        (decide (a.timestamp < now - retentionDays * 86400) &&
          !decide (a.timestamp < now - retentionDays * 86400)) = false := by
        intro a; simp
      simp [List.filter_congr (fun a _ => this a)]

/-- C6 witness: a concrete three-event table; the event dated before the
cutoff is removed, the two younger events survive, and the immediate rerun
deletes nothing. -/
theorem CleanupOldEvents_witness :
    (CleanupOldEvents 1000000 7 [
        { timestamp := 100, namespace' := "default", kind := "Deployment",
          name := "old", action := "ADDED" },
        { timestamp := 500000, namespace' := "default", kind := "Deployment",
          name := "young", action := "ADDED" }]).2 = 1 ∧
    ({ timestamp := 500000, namespace' := "default", kind := "Deployment",
       name := "young", action := "ADDED" } : ChangeEvent) ∈
      (CleanupOldEvents 1000000 7 [
        { timestamp := 100, namespace' := "default", kind := "Deployment",
          name := "old", action := "ADDED" },
        { timestamp := 500000, namespace' := "default", kind := "Deployment",
          name := "young", action := "ADDED" }]).1 := by
  have h := CleanupOldEvents_exact_and_idempotent 1000000 7 [
    { timestamp := 100, namespace' := "default", kind := "Deployment",
      name := "old", action := "ADDED" },
    { timestamp := 500000, namespace' := "default", kind := "Deployment",
      name := "young", action := "ADDED" }]
  exact ⟨h.2.2.2.2.1.trans (by decide), h.2.2.1 _ (by decide) (by decide)⟩

/-- C7: for every tracked kind and every delivered transition whose
resource lies in one of the reserved namespaces, the handler creates no
event at all — nothing is stored and nothing is notified. -/
theorem excludedNamespace_no_events (now : Int) :
    (∀ t : Transition Deployment, excludedNs (t.primary).namespace' = true →
        handleDeploymentEvent now t = []) ∧
    (∀ t : Transition ConfigMap, excludedNs (t.primary).namespace' = true →
        handleConfigMapEvent now t = []) ∧
    (∀ t : Transition Secret, excludedNs (t.primary).namespace' = true →
        handleSecretEvent now t = []) ∧
    (∀ t : Transition Service, excludedNs (t.primary).namespace' = true →
        handleServiceEvent now t = []) ∧
    (∀ t : Transition Ingress, excludedNs (t.primary).namespace' = true →
        handleIngressEvent now t = []) ∧
    (∀ t : Transition StatefulSet, excludedNs (t.primary).namespace' = true →
        handleStatefulSetEvent now t = []) ∧
    (∀ t : Transition DaemonSet, excludedNs (t.primary).namespace' = true →
        handleDaemonSetEvent now t = []) ∧
    (∀ t : Transition CronJob, excludedNs (t.primary).namespace' = true →
        handleCronJobEvent now t = []) ∧
    (∀ t : Transition Job, excludedNs (t.primary).namespace' = true →
        handleJobEvent now t = []) := by
  refine ⟨?_, ?_, ?_, ?_, ?_, ?_, ?_, ?_, ?_⟩ <;> intro t h <;>
    simp [handleDeploymentEvent, handleConfigMapEvent, handleSecretEvent,
      handleServiceEvent, handleIngressEvent, handleStatefulSetEvent,
      handleDaemonSetEvent, handleCronJobEvent, handleJobEvent, h]

/-- C7 witness: a deployment ADDED in kube-system and a secret MODIFIED in
kube-node-lease produce nothing. -/
theorem excludedNamespace_no_events_witness :
    handleDeploymentEvent 0
      (Transition.added { namespace' := "kube-system", name := "coredns" }) = [] ∧
    handleSecretEvent 0
      (Transition.modified
        { namespace' := "kube-node-lease", name := "s", data := [("k", "v1")] }
        { namespace' := "kube-node-lease", name := "s", data := [("k", "v2")] }) = [] :=
  ⟨(excludedNamespace_no_events 0).1 _ (by decide),
   (excludedNamespace_no_events 0).2.2.1 _ (by decide)⟩

/-- C8: whenever the replica counts of two deployment snapshots differ (a
nil pointer reading as 0), the policy fires and its summary is exactly
"Scaled up: o → n replicas" when the count rose and exactly
"Scaled down: o → n replicas" when it fell. -/
theorem deployment_scale_summary (o n : Deployment) :
    (o.replicas.getD 0 < n.replicas.getD 0 →
      detectMeaningfulChanges o n = (true,
        "Scaled up: " ++ toString (o.replicas.getD 0) ++ " → " ++
          toString (n.replicas.getD 0) ++ " replicas")) ∧
    (n.replicas.getD 0 < o.replicas.getD 0 →
      detectMeaningfulChanges o n = (true,
        "Scaled down: " ++ toString (o.replicas.getD 0) ++ " → " ++
          toString (n.replicas.getD 0) ++ " replicas")) := by
  constructor
  · intro h
    have h1 : o.replicas.getD 0 ≠ n.replicas.getD 0 := by omega
    have h2 : n.replicas.getD 0 > o.replicas.getD 0 := h
    simp [detectMeaningfulChanges, h1, h2]
  · intro h
    have h1 : o.replicas.getD 0 ≠ n.replicas.getD 0 := by omega
    have h2 : ¬ n.replicas.getD 0 > o.replicas.getD 0 := by omega
    simp [detectMeaningfulChanges, h1, h2]

/-- C8 witness: scaling 2 to 4 replicas reports "Scaled up: 2 → 4
replicas", and 4 to 2 reports "Scaled down: 4 → 2 replicas". -/
theorem deployment_scale_summary_witness :
    detectMeaningfulChanges
      { namespace' := "default", name := "web", replicas := some 2 }
      { namespace' := "default", name := "web", replicas := some 4 } =
      (true, "Scaled up: 2 → 4 replicas") ∧
    detectMeaningfulChanges
      { namespace' := "default", name := "web", replicas := some 4 }
      { namespace' := "default", name := "web", replicas := some 2 } =
      (true, "Scaled down: 4 → 2 replicas") :=
  ⟨((deployment_scale_summary
      { namespace' := "default", name := "web", replicas := some 2 }
      { namespace' := "default", name := "web", replicas := some 4 }).1
      (by decide)).trans (by decide),
   ((deployment_scale_summary
      { namespace' := "default", name := "web", replicas := some 4 }
      { namespace' := "default", name := "web", replicas := some 2 }).2
      (by decide)).trans (by decide)⟩

/-- C9: the sink delivers only for MODIFIED or DELETED actions — for ADDED
or any other action no message is posted and the call returns with no
error; an unconfigured sink (empty webhook) reports disabled and never
delivers for any event. -/
theorem NotifyChange_action_gating (s : SlackNotifier) (e : ChangeEvent) :
    (e.action ≠ "MODIFIED" ∧ e.action ≠ "DELETED" → NotifyChange s e = none) ∧
    ((NotifyChange s e).isSome →
        s.enabled = true ∧ (e.action = "MODIFIED" ∨ e.action = "DELETED")) ∧
    (NewSlackNotifier "").IsEnabled = false ∧
    NotifyChange (NewSlackNotifier "") e = none := by
  refine ⟨?_, ?_, rfl, ?_⟩
  · rintro ⟨h1, h2⟩
    by_cases hs : s.enabled <;> simp [NotifyChange, hs, h1, h2]
  · intro h
    by_cases hs : s.enabled
    · refine ⟨hs, ?_⟩
      by_cases hm : e.action = "MODIFIED"
      · exact Or.inl hm
      · by_cases hd : e.action = "DELETED"
        · exact Or.inr hd
        · simp [NotifyChange, hs, hm, hd] at h
    · simp [NotifyChange, hs] at h
  · simp [NotifyChange, NewSlackNotifier]

/-- C9 witness: a configured sink stays silent on an ADDED event, and the
unconfigured sink is disabled. -/
theorem NotifyChange_action_gating_witness :
    NotifyChange { webhookURL := "https://hooks.example/T000", enabled := true }
      { timestamp := 0, namespace' := "default", kind := "Deployment",
        name := "web", action := "ADDED" } = none ∧
    (NewSlackNotifier "").IsEnabled = false :=
  ⟨(NotifyChange_action_gating
      { webhookURL := "https://hooks.example/T000", enabled := true }
      { timestamp := 0, namespace' := "default", kind := "Deployment",
        name := "web", action := "ADDED" }).1 ⟨by decide, by decide⟩,
   (NotifyChange_action_gating { webhookURL := "", enabled := false }
      { timestamp := 0, namespace' := "d", kind := "k", name := "n",
        action := "ADDED" }).2.2.1⟩

/-- C10: in saveAndNotify the store write is the gate for notification —
when the write fails the error is returned, the table is unchanged and no
notification is scheduled; a scheduled notification implies the write
succeeded and the event is in the table. -/
theorem saveAndNotify_no_notify_on_save_error (db : List ChangeEvent)
    (err : String) (notifier : SlackNotifier) (e : ChangeEvent) :
    saveAndNotify db (some err) notifier e = (db, some err, false) ∧
    saveAndNotify db none notifier e = (db ++ [e], none, notifier.IsEnabled) ∧
    (∀ r : Option String, (saveAndNotify db r notifier e).2.2 = true →
        r = none ∧ e ∈ (saveAndNotify db r notifier e).1) := by
  refine ⟨rfl, rfl, ?_⟩
  intro r h
  cases r with
  | none => exact ⟨rfl, by simp [saveAndNotify]⟩
  | some msg => simp [saveAndNotify] at h

/-- C10 witness: with a failing store write no notification is scheduled,
even for an enabled notifier and a MODIFIED event. -/
theorem saveAndNotify_no_notify_on_save_error_witness :
    saveAndNotify [] (some "disk I/O error")
      { webhookURL := "https://hooks.example/T000", enabled := true }
      { timestamp := 5, namespace' := "default", kind := "Deployment",
        name := "web", action := "MODIFIED" } =
      ([], some "disk I/O error", false) ∧
    ((none : Option String) = none ∧
      ({ timestamp := 5, namespace' := "default", kind := "Deployment",
         name := "web", action := "MODIFIED" } : ChangeEvent) ∈
        (saveAndNotify [] none
          { webhookURL := "https://hooks.example/T000", enabled := true }
          { timestamp := 5, namespace' := "default", kind := "Deployment",
            name := "web", action := "MODIFIED" }).1) :=
  ⟨(saveAndNotify_no_notify_on_save_error [] "disk I/O error"
      { webhookURL := "https://hooks.example/T000", enabled := true }
      { timestamp := 5, namespace' := "default", kind := "Deployment",
        name := "web", action := "MODIFIED" }).1,
   (saveAndNotify_no_notify_on_save_error [] "disk I/O error"
      { webhookURL := "https://hooks.example/T000", enabled := true }
      { timestamp := 5, namespace' := "default", kind := "Deployment",
        name := "web", action := "MODIFIED" }).2.2 none (by decide)⟩

/-- An unset filter imposes no constraint (every event matches the
zero-valued Filter, whatever pagination it carries). -/
theorem matchesFilter_default (L O : Int) (e : ChangeEvent) :
    matchesFilter { limit := L, offset := O } e = true := rfl

/-- C5: a query with all filter fields unset returns every stored event,
ordered by timestamp descending (sorted, and a permutation of the table);
with limit L > 0 and offset O ≥ 0 it returns exactly the events at ranks
[O, O+L) of that ordering; and the count for the same filter fields ignores
limit/offset and equals the number of matching events — the length of the
unpaginated query result. -/
theorem GetEvents_order_pagination_count (db : List ChangeEvent)
    (f : Filter) (L O : Int) (hL : 0 < L) (hO : 0 ≤ O) :
    (GetEvents db {} = some (sortByTsDesc db) ∧
      List.Perm (sortByTsDesc db) db ∧ TsSortedDesc (sortByTsDesc db)) ∧
    GetEvents db { limit := L, offset := O } =
      some (((sortByTsDesc db).drop O.toNat).take L.toNat) ∧
    GetTotalCount db f =
      ((GetEvents db { f with limit := 0, offset := 0 }).getD []).length ∧
    GetTotalCount db { f with limit := L, offset := O } = GetTotalCount db f := by
  have hall : ∀ (L' O' : Int),
      db.filter (matchesFilter { limit := L', offset := O' }) = db := by
    intro L' O'
    exact List.filter_eq_self.mpr (fun a _ => matchesFilter_default L' O' a)
  refine ⟨⟨?_, sortByTsDesc_perm db, sortByTsDesc_sorted db⟩, ?_, ?_, ?_⟩
  · simp [GetEvents, hall 0 0]
  · by_cases hO2 : O > 0
    · simp [GetEvents, hall L O, hL, hO2]
    · have hO0 : O = 0 := by omega
      subst hO0
      simp [GetEvents, hall L 0, hL]
  · obtain ⟨ns, k, nm, ac, st, et, lim, off⟩ := f
    have hlen := (sortByTsDesc_perm (db.filter
      (matchesFilter (Filter.mk ns k nm ac st et 0 0)))).length_eq
    simp only [GetEvents]
    norm_num
    simpa [GetTotalCount] using hlen.symm
  · obtain ⟨ns, k, nm, ac, st, et, lim, off⟩ := f
    rfl

/-- C5 witness: a two-event table queried with limit 1, offset 1 returns
exactly the rank-1 event (the older one) of the timestamp-descending
order. -/
theorem GetEvents_order_pagination_count_witness :
    GetEvents [
      { timestamp := 1, namespace' := "default", kind := "Deployment",
        name := "a", action := "ADDED" },
      { timestamp := 2, namespace' := "default", kind := "Deployment",
        name := "b", action := "ADDED" }] { limit := 1, offset := 1 } =
      some [{ timestamp := 1, namespace' := "default", kind := "Deployment",
              name := "a", action := "ADDED" }] :=
  ((GetEvents_order_pagination_count [
      { timestamp := 1, namespace' := "default", kind := "Deployment",
        name := "a", action := "ADDED" },
      { timestamp := 2, namespace' := "default", kind := "Deployment",
        name := "b", action := "ADDED" }] {} 1 1
      (by decide) (by decide)).2.1).trans (by decide)

/-- The modified-key scan only consumes values through the changed/unchanged
verdict: lists paired key-by-key with equal keys and equal verdicts yield
the same modified-key list. -/
theorem secretModifiedKeys_congr {d1 d2 n1 n2 : List (String × String)}
    (h : List.Forall₂ (fun a b => a.1 = b.1 ∧
      valueChanged d1 a = valueChanged d2 b) n1 n2) :
    secretModifiedKeys d1 n1 = secretModifiedKeys d2 n2 := by
  induction h with
  | nil => rfl
  | cons hab htail ih =>
    obtain ⟨hk, hv⟩ := hab
    rename_i a b l1 l2
    cases hc : valueChanged d2 b with
    | false =>
      have hc1 : valueChanged d1 a = false := by rw [hv, hc]
      simpa [secretModifiedKeys, List.filterMap_cons, hc, hc1] using ih
    | true =>
      have hc1 : valueChanged d1 a = true := by rw [hv, hc]
      simpa [secretModifiedKeys, List.filterMap_cons, hc, hc1, hk] using ih

/-- C2: the Secret diff and metadata depend only on the secret types, the
key lists, and which keys changed — never on the value bytes.  Two input
pairs agreeing on those produce identical diff output and identical event
metadata, whatever their values contain. -/
theorem detectSecretChanges_value_noninterference (o1 n1 o2 n2 : Secret)
    (hot : o1.type = o2.type) (hnt : n1.type = n2.type)
    (hko : keysOf o1.data = keysOf o2.data)
    (hkn : keysOf n1.data = keysOf n2.data)
    (hch : List.Forall₂ (fun a b => a.1 = b.1 ∧
      valueChanged o1.data a = valueChanged o2.data b) n1.data n2.data) :
    detectSecretChanges o1 n1 = detectSecretChanges o2 n2 ∧
    secretEventMetadata n1 = secretEventMetadata n2 := by
  have ha : cmAddedKeys o1.data n1.data = cmAddedKeys o2.data n2.data := by
    simp only [cmAddedKeys, hko, hkn]
  have hr : cmRemovedKeys o1.data n1.data = cmRemovedKeys o2.data n2.data := by
    simp only [cmRemovedKeys, hko, hkn]
  have hm := secretModifiedKeys_congr hch
  constructor
  · simp only [detectSecretChanges, hot, hnt, ha, hr, hm]
  · simp only [secretEventMetadata, hkn, hnt]

/-- C2 witness: two secret update pairs with entirely different value
bytes but the same key pattern yield the identical diff — the one that
names only the key — and identical metadata. -/
theorem detectSecretChanges_value_noninterference_witness :
    detectSecretChanges
      { namespace' := "default", name := "db", data := [("password", "hunter2")] }
      { namespace' := "default", name := "db", data := [("password", "hunter3")] } =
    detectSecretChanges
      { namespace' := "default", name := "db", data := [("password", "AAAAAAAAAA")] }
      { namespace' := "default", name := "db", data := [("password", "BBBBBBBBBB")] } ∧
    detectSecretChanges
      { namespace' := "default", name := "db", data := [("password", "hunter2")] }
      { namespace' := "default", name := "db", data := [("password", "hunter3")] } =
      (true, "Keys modified: [password]\n\n(Secret values are not displayed for security)") :=
  ⟨(detectSecretChanges_value_noninterference
      { namespace' := "default", name := "db", data := [("password", "hunter2")] }
      { namespace' := "default", name := "db", data := [("password", "hunter3")] }
      { namespace' := "default", name := "db", data := [("password", "AAAAAAAAAA")] }
      { namespace' := "default", name := "db", data := [("password", "BBBBBBBBBB")] }
      rfl rfl rfl rfl
      (List.Forall₂.cons ⟨rfl, by decide⟩ List.Forall₂.nil)).1,
   by decide⟩

/-- Claim-side description of the modified keys of a map transition: the
keys of the new map that are present in both maps with differing values. -/
def specModifiedKeys (old new : List (String × String)) : List String :=
  (new.map Prod.fst).filter (fun k =>
    match List.lookup k old, List.lookup k new with
    | some ov, some nv => ov != nv
    | _, _ => false)

/-- One step of the modified-key scan. -/
theorem cmModifiedKeys_cons (old : List (String × String)) (kv : String × String)
    (t : List (String × String)) :
    cmModifiedKeys old (kv :: t) =
      (if valueChanged old kv then [kv.1] else []) ++ cmModifiedKeys old t := by
  cases h : valueChanged old kv <;> simp [cmModifiedKeys, List.filterMap_cons, h]

/-- One step of the detailed-change scan. -/
theorem cmDetailedChanges_cons (old : List (String × String)) (kv : String × String)
    (t : List (String × String)) :
    cmDetailedChanges old (kv :: t) =
      (match List.lookup kv.1 old with
        | some ov => if ov != kv.2 then
            ["[" ++ kv.1 ++ "]\n- " ++ ov ++ "\n+ " ++ kv.2] else []
        | none => []) ++ cmDetailedChanges old t := by
  cases hl : List.lookup kv.1 old with
  | none => simp [cmDetailedChanges, List.filterMap_cons, hl]
  | some ov =>
    cases hov : ov != kv.2 with
    | false =>
      have he : ov = kv.2 := by simpa using hov
      simp [cmDetailedChanges, List.filterMap_cons, hl, hov, he]
    | true =>
      have he : ¬ ov = kv.2 := by simpa using hov
      simp [cmDetailedChanges, List.filterMap_cons, hl, hov, he]

/-- One step of the claim-side modified-key list, for a head key that does
not recur in the tail. -/
theorem specModifiedKeys_cons (old : List (String × String))
    (kv : String × String) (t : List (String × String))
    (hfresh : kv.1 ∉ t.map Prod.fst) :
    specModifiedKeys old (kv :: t) =
      (if valueChanged old kv then [kv.1] else []) ++ specModifiedKeys old t := by
  obtain ⟨k0, v0⟩ := kv
  have hfilter : (t.map Prod.fst).filter (fun k =>
      match List.lookup k old, List.lookup k ((k0, v0) :: t) with
      | some ov, some nv => ov != nv
      | _, _ => false) = specModifiedKeys old t := by
    rw [specModifiedKeys]
    apply List.filter_congr
    intro k hk
    have hne : k ≠ k0 := fun h => hfresh (h ▸ hk)
    simp [List.lookup, beq_false_of_ne hne]
  have hhead : (match List.lookup k0 old, List.lookup k0 ((k0, v0) :: t) with
      | some ov, some nv => ov != nv
      | _, _ => false) = valueChanged old (k0, v0) := by
    cases hl : List.lookup k0 old <;> simp [valueChanged, List.lookup, hl]
  rw [specModifiedKeys, List.map_cons, List.filter_cons]
  simp only [hhead, hfilter]
  cases hv : valueChanged old (k0, v0) <;> simp [hv]

/-- On a map with `Nodup` keys the pair-scan of the source agrees with the
claim-side lookup formulation. -/
theorem cmModifiedKeys_eq_spec {old : List (String × String)} :
    ∀ {new : List (String × String)}, (new.map Prod.fst).Nodup →
      cmModifiedKeys old new = specModifiedKeys old new := by
  intro new
  induction new with
  | nil => intro _; rfl
  | cons kv t ih =>
    intro hn
    rw [List.map_cons, List.nodup_cons] at hn
    rw [cmModifiedKeys_cons, specModifiedKeys_cons old kv t hn.1, ih hn.2]

/-- Each map entry contributes to the detailed-change list exactly when it
contributes to the modified-key list, so the two have equal length. -/
theorem cmDetailedChanges_length (old : List (String × String)) :
    ∀ new : List (String × String),
      (cmDetailedChanges old new).length = (cmModifiedKeys old new).length := by
  intro new
  induction new with
  | nil => rfl
  | cons kv t ih =>
    rw [cmDetailedChanges_cons, cmModifiedKeys_cons]
    cases hl : List.lookup kv.1 old with
    | none =>
      have hv : valueChanged old kv = false := by simp [valueChanged, hl]
      simp [hl, hv, ih]
    | some ov =>
      have hv : valueChanged old kv = (ov != kv.2) := by simp [valueChanged, hl]
      cases hov : ov != kv.2 <;> simp [hl, hv, hov, ih]

/-- C4 counterexample: in a ConfigMap transition that both adds the key
"extra" and modifies the key "dbkey", the produced diff is only
"Keys added: [extra]" — the modified key is not listed and its before/after
text does not appear, so the diff does not list exactly the added, removed
and modified keys. -/
theorem detectConfigMapChanges_counterexample :
    (detectConfigMapChanges
      { namespace' := "default", name := "cfg", data := [("dbkey", "1")] }
      { namespace' := "default", name := "cfg",
        data := [("dbkey", "2"), ("extra", "x")] }) =
      (true, "Keys added: [extra]") ∧
    valueChanged [("dbkey", "1")] ("dbkey", "2") = true ∧
    strContains "Keys added: [extra]" "dbkey" = false := by decide

/-- C4 (amended): the added-key and removed-key lists contain exactly the
keys present in one map and absent from the other; when at least one key
was added the diff reports only the added key names; otherwise, when at
least one key was removed, only the removed key names; only when the key
set is unchanged (and some value changed) does the diff list exactly the
modified keys and reproduce, for every modified key, the exact before and
after text of its value. -/
theorem detectConfigMapChanges_amended (oldCM newCM : ConfigMap) :
    (∀ k, k ∈ cmAddedKeys oldCM.data newCM.data ↔
        k ∈ keysOf newCM.data ∧ k ∉ keysOf oldCM.data) ∧
    (∀ k, k ∈ cmRemovedKeys oldCM.data newCM.data ↔
        k ∈ keysOf oldCM.data ∧ k ∉ keysOf newCM.data) ∧
    (cmAddedKeys oldCM.data newCM.data ≠ [] →
      detectConfigMapChanges oldCM newCM =
        (true, "Keys added: " ++ goStrSlice (cmAddedKeys oldCM.data newCM.data))) ∧
    (cmAddedKeys oldCM.data newCM.data = [] →
      cmRemovedKeys oldCM.data newCM.data ≠ [] →
      detectConfigMapChanges oldCM newCM =
        (true, "Keys removed: " ++ goStrSlice (cmRemovedKeys oldCM.data newCM.data))) ∧
    ((keysOf newCM.data).Nodup →
      keysOf oldCM.data ⊆ keysOf newCM.data →
      keysOf newCM.data ⊆ keysOf oldCM.data →
      specModifiedKeys oldCM.data newCM.data ≠ [] →
      detectConfigMapChanges oldCM newCM = (true,
        "Keys modified: " ++ goStrSlice (specModifiedKeys oldCM.data newCM.data) ++
          "\n\n" ++
          String.intercalate "\n\n" (cmDetailedChanges oldCM.data newCM.data)) ∧
      (∀ k, k ∈ specModifiedKeys oldCM.data newCM.data ↔
        ∃ ov nv, List.lookup k oldCM.data = some ov ∧
          List.lookup k newCM.data = some nv ∧ ov ≠ nv) ∧
      (∀ k ov nv, List.lookup k oldCM.data = some ov →
        List.lookup k newCM.data = some nv → ov ≠ nv →
        ("[" ++ k ++ "]\n- " ++ ov ++ "\n+ " ++ nv) ∈
          cmDetailedChanges oldCM.data newCM.data) ∧
      (∀ d ∈ cmDetailedChanges oldCM.data newCM.data, ∃ k ov nv,
        List.lookup k oldCM.data = some ov ∧ List.lookup k newCM.data = some nv ∧
        ov ≠ nv ∧ d = "[" ++ k ++ "]\n- " ++ ov ++ "\n+ " ++ nv)) := by
  refine ⟨?_, ?_, ?_, ?_, ?_⟩
  · intro k
    simp [cmAddedKeys, List.mem_filter]
  · intro k
    simp [cmRemovedKeys, List.mem_filter]
  · intro haddne
    have h1 : (cmAddedKeys oldCM.data newCM.data).isEmpty = false := by
      simpa [List.isEmpty_iff] using haddne
    rw [detectConfigMapChanges]
    simp [h1]
  · intro haddnil hremne
    have h2 : (cmRemovedKeys oldCM.data newCM.data).isEmpty = false := by
      simpa [List.isEmpty_iff] using hremne
    rw [detectConfigMapChanges]
    simp [haddnil, h2]
  · intro hnodup hsub1 hsub2 hmod
    have hmodeq := @cmModifiedKeys_eq_spec oldCM.data newCM.data hnodup
    have hadd : cmAddedKeys oldCM.data newCM.data = [] := by
      rw [cmAddedKeys, List.filter_eq_nil_iff]
      intro k hk
      simp only [Bool.not_eq_true', Bool.not_eq_false]
      simp
      exact hsub2 hk
    have hrem : cmRemovedKeys oldCM.data newCM.data = [] := by
      rw [cmRemovedKeys, List.filter_eq_nil_iff]
      intro k hk
      simp only [Bool.not_eq_true', Bool.not_eq_false]
      simp
      exact hsub1 hk
    have hmodne : cmModifiedKeys oldCM.data newCM.data ≠ [] := by
      rw [hmodeq]; exact hmod
    have hdetne : cmDetailedChanges oldCM.data newCM.data ≠ [] := by
      intro h
      apply hmodne
      have hlen := cmDetailedChanges_length oldCM.data newCM.data
      rw [h] at hlen
      exact List.length_eq_zero.mp hlen.symm
    refine ⟨?_, ?_, ?_, ?_⟩
    · rw [detectConfigMapChanges]
      simp only [hadd, hrem, hmodeq]
      have h1 : (specModifiedKeys oldCM.data newCM.data).isEmpty = false := by
        simpa [List.isEmpty_iff] using hmod
      have h2 : (cmDetailedChanges oldCM.data newCM.data).isEmpty = false := by
        simpa [List.isEmpty_iff] using hdetne
      simp [h1, h2]
    · intro k
      constructor
      · intro hk
        rw [specModifiedKeys, List.mem_filter] at hk
        obtain ⟨hmem, hcond⟩ := hk
        have hns : (List.lookup k newCM.data).isSome :=
          mem_keys_iff_lookup_isSome.mp hmem
        obtain ⟨nv, hnv⟩ := Option.isSome_iff_exists.mp hns
        cases hl : List.lookup k oldCM.data with
        | none => rw [hl, hnv] at hcond; simp at hcond
        | some ov =>
          rw [hl, hnv] at hcond
          exact ⟨ov, nv, rfl, hnv, by simpa using hcond⟩
      · rintro ⟨ov, nv, hov, hnv, hne⟩
        rw [specModifiedKeys, List.mem_filter]
        refine ⟨mem_keys_iff_lookup_isSome.mpr (by simp [hnv]), ?_⟩
        rw [hov, hnv]
        simpa using hne
    · intro k ov nv hov hnv hne
      rw [cmDetailedChanges, List.mem_filterMap]
      exact ⟨(k, nv), mem_of_lookup_eq_some hnv, by simp [hov, bne_iff_ne, hne]⟩
    · intro d hd
      rw [cmDetailedChanges, List.mem_filterMap] at hd
      obtain ⟨kv, hkv, hf⟩ := hd
      cases hl : List.lookup kv.1 oldCM.data with
      | none => rw [hl] at hf; simp at hf
      | some ov =>
        rw [hl] at hf
        by_cases hne : ov = kv.2
        · simp [hne] at hf
        · refine ⟨kv.1, ov, kv.2, hl, lookup_eq_of_mem_of_nodup hnodup ?_, hne, ?_⟩
          · exact hkv
          · have hout : (if (ov != kv.2) = true then
                some ("[" ++ kv.1 ++ "]\n- " ++ ov ++ "\n+ " ++ kv.2) else none) = some d := by
              simpa using hf
            rw [if_pos (by simpa using hne)] at hout
            exact (Option.some_inj.mp hout).symm

/-- C4 witness: an added key yields "Keys added: [b]"; with none added, a
removed key yields "Keys removed: [b]"; with equal key sets, the single
changed key "b" yields the diff listing exactly "b" with its exact
before/after text. -/
theorem detectConfigMapChanges_amended_witness :
    detectConfigMapChanges
      { namespace' := "default", name := "cfg", data := [("a", "1")] }
      { namespace' := "default", name := "cfg", data := [("a", "1"), ("b", "2")] } =
      (true, "Keys added: [b]") ∧
    detectConfigMapChanges
      { namespace' := "default", name := "cfg", data := [("a", "1"), ("b", "2")] }
      { namespace' := "default", name := "cfg", data := [("a", "1")] } =
      (true, "Keys removed: [b]") ∧
    detectConfigMapChanges
      { namespace' := "default", name := "cfg", data := [("a", "1"), ("b", "2")] }
      { namespace' := "default", name := "cfg", data := [("a", "1"), ("b", "3")] } =
      (true, "Keys modified: [b]\n\n[b]\n- 2\n+ 3") :=
  ⟨((detectConfigMapChanges_amended
      { namespace' := "default", name := "cfg", data := [("a", "1")] }
      { namespace' := "default", name := "cfg",
        data := [("a", "1"), ("b", "2")] }).2.2.1 (by decide)).trans (by decide),
   ((detectConfigMapChanges_amended
      { namespace' := "default", name := "cfg", data := [("a", "1"), ("b", "2")] }
      { namespace' := "default", name := "cfg",
        data := [("a", "1")] }).2.2.2.1 (by decide) (by decide)).trans (by decide),
   (((detectConfigMapChanges_amended
      { namespace' := "default", name := "cfg", data := [("a", "1"), ("b", "2")] }
      { namespace' := "default", name := "cfg",
        data := [("a", "1"), ("b", "3")] }).2.2.2.2
      (by decide) (by decide) (by decide) (by decide)).1).trans (by decide)⟩

/-- C1 counterexample: a secret ADDED in the non-excluded namespace
"default" produces zero stored events — the handler also skips
platform-managed secrets (here a service-account token), so an ADDED
transition in a non-excluded namespace does not always produce exactly one
stored event. -/
theorem tracked_kinds_event_production_counterexample :
    excludedNs "default" = false ∧
    handleSecretEvent 0 (Transition.added
      { namespace' := "default", name := "default-token-x7k9p",
        type := "kubernetes.io/service-account-token",
        data := [("token", "eyJhbGciOiJSUzI1NiJ9")] }) = [] := by decide

/-- C1 (amended): for every tracked kind, an ADDED or DELETED transition in
a non-excluded namespace produces exactly one stored event and a MODIFIED
transition produces a stored event iff the kind's policy returns true —
except that (a) Secret transitions additionally require the secret not to
be platform-managed (service-account token, helm release, or owned), and
(b) a Job MODIFIED transition is dropped before the policy whenever the
new snapshot's succeeded or failed counter is positive. -/
theorem tracked_kinds_event_production (now : Int) :
    (∀ n : Deployment, excludedNs n.namespace' = false →
        (handleDeploymentEvent now (.added n)).length = 1) ∧
    (∀ o : Deployment, excludedNs o.namespace' = false →
        (handleDeploymentEvent now (.deleted o)).length = 1) ∧
    (∀ o n : Deployment, excludedNs n.namespace' = false →
        ((handleDeploymentEvent now (.modified o n)).length = 1 ↔
          (detectMeaningfulChanges o n).1 = true)) ∧
    (∀ n : ConfigMap, excludedNs n.namespace' = false →
        (handleConfigMapEvent now (.added n)).length = 1) ∧
    (∀ o : ConfigMap, excludedNs o.namespace' = false →
        (handleConfigMapEvent now (.deleted o)).length = 1) ∧
    (∀ o n : ConfigMap, excludedNs n.namespace' = false →
        ((handleConfigMapEvent now (.modified o n)).length = 1 ↔
          (detectConfigMapChanges o n).1 = true)) ∧
    (∀ n : Secret, excludedNs n.namespace' = false → secretSkip n = false →
        (handleSecretEvent now (.added n)).length = 1) ∧
    (∀ o : Secret, excludedNs o.namespace' = false → secretSkip o = false →
        (handleSecretEvent now (.deleted o)).length = 1) ∧
    (∀ o n : Secret, excludedNs n.namespace' = false → secretSkip n = false →
        ((handleSecretEvent now (.modified o n)).length = 1 ↔
          (detectSecretChanges o n).1 = true)) ∧
    (∀ n : Service, excludedNs n.namespace' = false →
        (handleServiceEvent now (.added n)).length = 1) ∧
    (∀ o : Service, excludedNs o.namespace' = false →
        (handleServiceEvent now (.deleted o)).length = 1) ∧
    (∀ o n : Service, excludedNs n.namespace' = false →
        ((handleServiceEvent now (.modified o n)).length = 1 ↔
          (detectServiceChanges o n).1 = true)) ∧
    (∀ n : Ingress, excludedNs n.namespace' = false →
        (handleIngressEvent now (.added n)).length = 1) ∧
    (∀ o : Ingress, excludedNs o.namespace' = false →
        (handleIngressEvent now (.deleted o)).length = 1) ∧
    (∀ o n : Ingress, excludedNs n.namespace' = false →
        ((handleIngressEvent now (.modified o n)).length = 1 ↔
          (detectIngressChanges o n).1 = true)) ∧
    (∀ n : StatefulSet, excludedNs n.namespace' = false →
        (handleStatefulSetEvent now (.added n)).length = 1) ∧
    (∀ o : StatefulSet, excludedNs o.namespace' = false →
        (handleStatefulSetEvent now (.deleted o)).length = 1) ∧
    (∀ o n : StatefulSet, excludedNs n.namespace' = false →
        ((handleStatefulSetEvent now (.modified o n)).length = 1 ↔
          (detectStatefulSetChanges o n).1 = true)) ∧
    (∀ n : DaemonSet, excludedNs n.namespace' = false →
        (handleDaemonSetEvent now (.added n)).length = 1) ∧
    (∀ o : DaemonSet, excludedNs o.namespace' = false →
        (handleDaemonSetEvent now (.deleted o)).length = 1) ∧
    (∀ o n : DaemonSet, excludedNs n.namespace' = false →
        ((handleDaemonSetEvent now (.modified o n)).length = 1 ↔
          (detectDaemonSetChanges o n).1 = true)) ∧
    (∀ n : CronJob, excludedNs n.namespace' = false →
        (handleCronJobEvent now (.added n)).length = 1) ∧
    (∀ o : CronJob, excludedNs o.namespace' = false →
        (handleCronJobEvent now (.deleted o)).length = 1) ∧
    (∀ o n : CronJob, excludedNs n.namespace' = false →
        ((handleCronJobEvent now (.modified o n)).length = 1 ↔
          (detectCronJobChanges o n).1 = true)) ∧
    (∀ n : Job, excludedNs n.namespace' = false →
        (handleJobEvent now (.added n)).length = 1) ∧
    (∀ o : Job, excludedNs o.namespace' = false →
        (handleJobEvent now (.deleted o)).length = 1) ∧
    (∀ o n : Job, excludedNs n.namespace' = false →
        ((handleJobEvent now (.modified o n)).length = 1 ↔
          (¬(n.status.succeeded > 0 ∨ n.status.failed > 0) ∧
            (detectJobChanges o n).1 = true))) := by
  refine ⟨?_, ?_, ?_, ?_, ?_, ?_, ?_, ?_, ?_, ?_, ?_, ?_, ?_, ?_, ?_, ?_, ?_,
    ?_, ?_, ?_, ?_, ?_, ?_, ?_, ?_, ?_, ?_⟩
  · intro n hns; simp [handleDeploymentEvent, Transition.primary, hns]
  · intro o hns; simp [handleDeploymentEvent, Transition.primary, hns]
  · intro o n hns
    cases hd : (detectMeaningfulChanges o n).1 <;>
      simp [handleDeploymentEvent, Transition.primary, hns, hd]
  · intro n hns; simp [handleConfigMapEvent, Transition.primary, hns]
  · intro o hns; simp [handleConfigMapEvent, Transition.primary, hns]
  · intro o n hns
    cases hd : (detectConfigMapChanges o n).1 <;>
      simp [handleConfigMapEvent, Transition.primary, hns, hd]
  · intro n hns hsk; simp [handleSecretEvent, Transition.primary, hns, hsk]
  · intro o hns hsk; simp [handleSecretEvent, Transition.primary, hns, hsk]
  · intro o n hns hsk
    cases hd : (detectSecretChanges o n).1 <;>
      simp [handleSecretEvent, Transition.primary, hns, hsk, hd]
  · intro n hns; simp [handleServiceEvent, Transition.primary, hns]
  · intro o hns; simp [handleServiceEvent, Transition.primary, hns]
  · intro o n hns
    cases hd : (detectServiceChanges o n).1 <;>
      simp [handleServiceEvent, Transition.primary, hns, hd]
  · intro n hns; simp [handleIngressEvent, Transition.primary, hns]
  · intro o hns; simp [handleIngressEvent, Transition.primary, hns]
  · intro o n hns
    cases hd : (detectIngressChanges o n).1 <;>
      simp [handleIngressEvent, Transition.primary, hns, hd]
  · intro n hns; simp [handleStatefulSetEvent, Transition.primary, hns]
  · intro o hns; simp [handleStatefulSetEvent, Transition.primary, hns]
  · intro o n hns
    cases hd : (detectStatefulSetChanges o n).1 <;>
      simp [handleStatefulSetEvent, Transition.primary, hns, hd]
  · intro n hns; simp [handleDaemonSetEvent, Transition.primary, hns]
  · intro o hns; simp [handleDaemonSetEvent, Transition.primary, hns]
  · intro o n hns
    cases hd : (detectDaemonSetChanges o n).1 <;>
      simp [handleDaemonSetEvent, Transition.primary, hns, hd]
  · intro n hns; simp [handleCronJobEvent, Transition.primary, hns]
  · intro o hns; simp [handleCronJobEvent, Transition.primary, hns]
  · intro o n hns
    cases hd : (detectCronJobChanges o n).1 <;>
      simp [handleCronJobEvent, Transition.primary, hns, hd]
  · intro n hns; simp [handleJobEvent, Transition.primary, hns]
  · intro o hns; simp [handleJobEvent, Transition.primary, hns]
  · intro o n hns
    by_cases hstat : n.status.succeeded > 0 ∨ n.status.failed > 0
    · simp [handleJobEvent, Transition.primary, hns, hstat]
    · cases hd : (detectJobChanges o n).1 <;>
        simp [handleJobEvent, Transition.primary, hns, hstat, hd]

/-- C1 witness: a deployment created in "default" stores one event, and a
job whose parallelism changed (with zero status counters) stores one
event. -/
theorem tracked_kinds_event_production_witness :
    (handleDeploymentEvent 0 (Transition.added
      { namespace' := "default", name := "web" })).length = 1 ∧
    (handleJobEvent 0 (Transition.modified
      { namespace' := "default", name := "migrate", parallelism := some 1 }
      { namespace' := "default", name := "migrate",
        parallelism := some 2 })).length = 1 :=
  ⟨(tracked_kinds_event_production 0).1 _ (by decide),
   ((tracked_kinds_event_production 0).2.2.2.2.2.2.2.2.2.2.2.2.2.2.2.2.2.2.2.2.2.2.2.2.2.2
      { namespace' := "default", name := "migrate", parallelism := some 1 }
      { namespace' := "default", name := "migrate", parallelism := some 2 }
      (by decide)).mpr ⟨by decide, by decide⟩⟩

/-- C3: on a MODIFIED Job transition where only status counters advanced
(no spec change) the handler stores nothing, as the claim says; but on a
transition where parallelism changed while the new snapshot's succeeded
counter is positive, the policy does detect the spec change yet the handler
still stores nothing — the pre-filter `succeeded > 0 || failed > 0` drops
transitions that are not status-only, contradicting both its own comment
and the specification. -/
theorem handleJobEvent_status_prefilter_bug :
    handleJobEvent 0 (Transition.modified
      { namespace' := "default", name := "migrate", parallelism := some 1,
        status := { succeeded := 0 } }
      { namespace' := "default", name := "migrate", parallelism := some 1,
        status := { succeeded := 1 } }) = [] ∧
    (detectJobChanges
      { namespace' := "default", name := "migrate", parallelism := some 1,
        status := { succeeded := 1 } }
      { namespace' := "default", name := "migrate", parallelism := some 2,
        status := { succeeded := 1 } }).1 = true ∧
    handleJobEvent 0 (Transition.modified
      { namespace' := "default", name := "migrate", parallelism := some 1,
        status := { succeeded := 1 } }
      { namespace' := "default", name := "migrate", parallelism := some 2,
        status := { succeeded := 1 } }) = [] := by decide

end K8Watch
